import Mathlib

set_option autoImplicit false

/-!
Verification of the PDF extraction / embedding / persistence pipeline
(`extract_pdf.py`, `pdf-grpc-server.py`) against its specification.

Python runtime values that may appear as chunk metadata are shallowly
embedded as a mutual inductive family; the pipeline stages become pure
Lean functions over explicit environments describing the outcomes of the
opaque external collaborators (document converter, chunker, embedding
model, relational store).
-/

namespace PdfPipeline

mutual

/-- A Python runtime value, as dispatched on by `convert_to_dict`
(`extract_pdf.py` lines 45‑59).  Constructors mirror the `isinstance`
branches of the source: `enum` is an `Enum` instance carrying its
`.value`; `obj` is any object with a `__dict__` of attributes; `pydict`
is a built-in `dict` (which has no `__dict__` attribute); `float` carries
the float's printed form opaquely (no arithmetic is performed on it);
`other` is any remaining leaf object, carrying only its `str()` form. -/
inductive PyVal : Type where
  | pynone : PyVal
  | bool (b : Bool) : PyVal
  | int (n : Int) : PyVal
  | float (printed : String) : PyVal
  | str (s : String) : PyVal
  | enum (value : PyVal) : PyVal
  | list (items : PyList) : PyVal
  | obj (attrs : PyFields) : PyVal
  | pydict (entries : PyFields) : PyVal
  | other (strForm : String) : PyVal
  deriving DecidableEq

/-- A Python list of values. -/
inductive PyList : Type where
  | nil : PyList
  | cons (head : PyVal) (tail : PyList) : PyList
  deriving DecidableEq

/-- An ordered string-keyed field list (a `__dict__` or a built-in dict). -/
inductive PyFields : Type where
  | nil : PyFields
  | cons (key : String) (val : PyVal) (tail : PyFields) : PyFields
  deriving DecidableEq

end

instance : Inhabited PyVal := ⟨.pynone⟩

mutual

/-- `convert_to_dict` (`extract_pdf.py` lines 45‑59), parametrised by the
opaque Python builtin `str` (`strF`).  Branch order follows the source:
an `Enum` is replaced by its raw `.value` *without recursion*; an object
with `__dict__` is recursed into with underscore-prefixed keys dropped;
a list is mapped; a primitive is returned as is; anything else (including
built-in dicts, which have no `__dict__`) becomes its `str()` form. -/
def convert_to_dict (strF : PyVal → String) : PyVal → PyVal
  | .enum value => value
  | .obj attrs => .pydict (convertFields strF attrs)
  | .list items => .list (convertList strF items)
  | .pynone => .pynone
  | .bool b => .bool b
  | .int n => .int n
  | .float p => .float p
  | .str s => .str s
  | .pydict entries => .str (strF (.pydict entries))
  | .other s => .str (strF (.other s))

/-- The dict comprehension of `convert_to_dict`: keep a binding iff its
key does not start with an underscore, converting the value. -/
def convertFields (strF : PyVal → String) : PyFields → PyFields
  | .nil => .nil
  | .cons key val tail =>
      if key.startsWith ("_") then convertFields strF tail
      else .cons key (convert_to_dict strF val) (convertFields strF tail)

/-- The list branch of `convert_to_dict`, mapping the conversion. -/
def convertList (strF : PyVal → String) : PyList → PyList
  | .nil => .nil
  | .cons head tail => .cons (convert_to_dict strF head) (convertList strF tail)

end

mutual

/-- Whether a value lies in the structured-value-tree grammar of the spec
(§6): null, boolean, number, string, list of trees, string-keyed mapping
of trees.  `enum`, `obj` and `other` nodes are raw Python objects outside
the grammar. -/
def isJsonTree : PyVal → Bool
  | .pynone => true
  | .bool _ => true
  | .int _ => true
  | .float _ => true
  | .str _ => true
  | .enum _ => false
  | .list items => isJsonTreeList items
  | .obj _ => false
  | .pydict entries => isJsonTreeFields entries
  | .other _ => false

def isJsonTreeList : PyList → Bool
  | .nil => true
  | .cons head tail => isJsonTree head && isJsonTreeList tail

def isJsonTreeFields : PyFields → Bool
  | .nil => true
  | .cons _ val tail => isJsonTree val && isJsonTreeFields tail

end

mutual

/-- The Python stdlib `json.dumps`: succeeds exactly on
structured-value-trees, raising `TypeError` (modelled as `.error`) on any
raw object (`enum` instances, `obj`, `other`).  The produced text is a
straightforward compact JSON rendering; its exact spacing is irrelevant
to every property proved below. -/
def json_dumps : PyVal → Except String String
  | .pynone => .ok ("null")
  | .bool b => .ok (if b then "true" else "false")
  | .int n => .ok (toString n)
  | .float p => .ok p
  | .str s => .ok ("\"" ++ s ++ "\"")
  | .enum _ => .error ("TypeError: Object of type Enum value is not JSON serializable")
  | .list items => (jsonDumpsList items).map (fun body => "[" ++ body ++ "]")
  | .obj _ => .error ("TypeError: Object is not JSON serializable")
  | .pydict entries => (jsonDumpsFields entries).map (fun body => "\x7b" ++ body ++ "\x7d")
  | .other _ => .error ("TypeError: Object is not JSON serializable")

/-- Renders the comma-separated members of a JSON array. -/
def jsonDumpsList : PyList → Except String String
  | .nil => .ok ("")
  | .cons head .nil => json_dumps head
  | .cons head tail => do
      let h ← json_dumps head
      let t ← jsonDumpsList tail
      pure (h ++ ", " ++ t)

/-- Renders the comma-separated members of a JSON object. -/
def jsonDumpsFields : PyFields → Except String String
  | .nil => .ok ("")
  | .cons key val .nil => (json_dumps val).map (fun v => "\"" ++ key ++ "\": " ++ v)
  | .cons key val tail => do
      let v ← json_dumps val
      let t ← jsonDumpsFields tail
      pure ("\"" ++ key ++ "\": " ++ v ++ ", " ++ t)

end

mutual

/-- Inputs on which `convert_to_dict` is guaranteed to land in the
structured-value-tree grammar: every `Enum` instance anywhere in the
value must carry a value that is *already* a tree (because the source
returns `obj.value` without converting it). -/
def goodInput : PyVal → Bool
  | .pynone => true
  | .bool _ => true
  | .int _ => true
  | .float _ => true
  | .str _ => true
  | .enum value => isJsonTree value
  | .list items => goodInputList items
  | .obj attrs => goodInputFields attrs
  | .pydict _ => true
  | .other _ => true

def goodInputList : PyList → Bool
  | .nil => true
  | .cons head tail => goodInput head && goodInputList tail

def goodInputFields : PyFields → Bool
  | .nil => true
  | .cons _ val tail => goodInput val && goodInputFields tail

end

/-! ### Pipeline data model -/

/-- An embedding vector.  The numeric payload is opaque to every claim;
only identity of whole vectors matters, so components are integers. -/
def Emb : Type := List Int

/-- A `DocChunk` produced by the chunker: its text and its `meta`
attribute (an arbitrary object, here a `PyVal`). -/
structure Chunk : Type where
  text : String
  meta : PyVal
  deriving DecidableEq, Inhabited

/-- One row of the `embeddings` table, as built by `embed_chunks`
(`extract_pdf.py` lines 122‑128): generated identifier (uuid4, modelled
as the row's global sequence number), fragment text, serialized metadata,
embedding vector. -/
structure Row : Type where
  id : Nat
  doc_fragment : String
  metadata : String
  embedding : List Int
  deriving DecidableEq

/-- The structured document returned by `DocumentConverter.convert`:
an ordered sequence of content elements, each of a kind. -/
inductive ElementKind : Type where
  | text
  | table
  | picture
  deriving DecidableEq

/-- `StructuredDocument` (spec §3): ordered tree of content elements,
flattened here to the element sequence, which is all the claims consult. -/
structure StructuredDoc : Type where
  elements : List ElementKind
  deriving DecidableEq

/-- Connection-level behaviour of the relational store at one instant:
outcome of `psycopg2.connect` (plus the initial round trip), and an
optional insert fault `(n, e)` meaning the batched insert raises error
`e` after `n` rows have been executed inside the open transaction. -/
structure StoreBehavior : Type where
  connect : Except String Unit
  insertFault : Option (Nat × String)

/-- Per-request world: outcomes of every opaque collaborator the request
touches.  `convert`/`chunk` model `DocumentConverter.convert` and
`HybridChunker.chunk` on this request's document, `modelLoad` the
`SentenceTransformer` constructor, `encodeText` the loaded model's
per-text embedding, `strF` the Python `str` builtin, and `store` the
store's behaviour while this request runs. -/
structure Env : Type where
  convert : Except String StructuredDoc
  chunk : StructuredDoc → Except String (List Chunk)
  modelLoad : Except String Unit
  encodeText : String → List Int
  strF : PyVal → String
  store : StoreBehavior

/-! ### Extraction stage (`extract_pdf.py` lines 62‑98) -/

/-- The pipeline options `extract_pdf` constructs (lines 79‑83):
image scale 2.0 and in-memory picture-image generation enabled. -/
structure PdfPipelineOptions : Type where
  images_scale : ℚ
  generate_picture_images : Bool
  deriving DecidableEq

/-- The options literal of `extract_pdf.py` lines 79‑83. -/
def pipeline_options : PdfPipelineOptions :=
  { images_scale := 2, generate_picture_images := true }

/-- `extract_pdf` (lines 62‑98): convert the document, then chunk it;
a fault in either collaborator propagates as the stage's error.  The
function takes only the input path; it has no output directory and
performs no file writes. -/
def extract_pdf (env : Env) : Except String (List Chunk) :=
  match env.convert with
  | .error e => .error e
  | .ok doc => env.chunk doc

/-- The image files `extract_pdf` writes while processing a document:
the source renders nothing to disk (pictures stay inside the in-memory
document object), so the list is empty whatever the document holds. -/
def extract_pdf_files_written (_env : Env) : List String := []

/-! ### Embedding and persistence stage (`extract_pdf.py` lines 101‑142) -/

/-- `batch_size = 100` (line 111). -/
def batch_size : Nat := 100

/-- Number of iterations of `range(0, n, bs)` for `bs > 0`. -/
def numBatches (n bs : Nat) : Nat := (n + bs - 1) / bs

/-- The batch start indices produced by `range(0, n, bs)`. -/
def batchStarts (n bs : Nat) : List Nat :=
  (List.range (numBatches n bs)).map (fun b => b * bs)

/-- The Python slice `l[i:i+bs]`. -/
def slice {α : Type} (l : List α) (i bs : Nat) : List α :=
  (l.drop i).take bs

/-- `model.encode(batch_texts)`: one vector per text, in order. -/
def encode (env : Env) (texts : List String) : List (List Int) :=
  texts.map env.encodeText

/-- The inner loop `for text, emb in zip(batch_texts, batch_embeddings)`
of lines 122‑128, appending one row per pair.  `idx` is the global count
of rows already appended, standing in for the freshly generated
`uuid4()`; `metaStr` is the serialized metadata used for this batch. -/
def rowsFromBatch (metaStr : String) : Nat → List (String × List Int) → List Row
  | _, [] => []
  | idx, (text, emb) :: rest =>
      { id := idx, doc_fragment := text, metadata := metaStr, embedding := emb }
        :: rowsFromBatch metaStr (idx + 1) rest

/-- One iteration of the batch loop (lines 119‑128) at start index `i`:
slice the texts, encode them, and append one row per pair.  Faithful to
the source, the metadata serialized for *every* row of the batch is that
of `chunks[i]` — the chunk at the batch start index — because the loop
body reads `chunks[i].meta` with the outer loop variable.  A
serialization fault (`json.dumps` raising) aborts the whole construction,
which the enclosing `try` of `embed_chunks` later catches. -/
def batchRows (env : Env) (chunks : List Chunk) (bs i : Nat) :
    Except String (List Row) :=
  let texts := chunks.map Chunk.text
  let batch_texts := slice texts i bs
  let batch_embeddings := encode env batch_texts
  match json_dumps (convert_to_dict env.strF (chunks.getD i default).meta) with
  | .error e => .error e
  | .ok metaStr => .ok (rowsFromBatch metaStr i (batch_texts.zip batch_embeddings))

/-- Runs the batch loop over the given start indices, concatenating in
order; the first fault aborts (the exception discards all rows built so
far). -/
def collectBatches (env : Env) (chunks : List Chunk) (bs : Nat) :
    List Nat → Except String (List (List Row))
  | [] => .ok []
  | i :: rest =>
      match batchRows env chunks bs i with
      | .error e => .error e
      | .ok rows =>
          match collectBatches env chunks bs rest with
          | .error e => .error e
          | .ok later => .ok (rows :: later)

/-- The full `data` list of lines 118‑128: all batches, in order. -/
def buildRows (env : Env) (chunks : List Chunk) (bs : Nat) :
    Except String (List Row) :=
  (collectBatches env chunks bs (batchStarts chunks.length bs)).map List.flatten

/-- The rows the store has executed inside the open transaction when the
insert fault (if any) fires: a prefix of the batch. -/
def executedBeforeFault (store : StoreBehavior) (data : List Row) : List Row :=
  match store.insertFault with
  | none => data
  | some (n, _) => data.take n

/-- The transaction of lines 130‑138: `execute_batch` inserts all rows
inside one transaction and `conn.commit()` runs once afterwards.  If the
insert raises after some rows, the transaction is rolled back (both by
the `with` block and by the explicit `conn.rollback()` of line 142), so
the visible table keeps exactly its prior rows.  Result: visible rows
after the call, number of commits issued, and the raised error if any. -/
def persistTransaction (store : StoreBehavior) (db data : List Row) :
    List Row × Nat × Option String :=
  match store.insertFault with
  | some (n, e) =>
      if n < data.length then (db, 0, some e) else (db ++ data, 1, none)
  | none => (db ++ data, 1, none)

/-- `embed_chunks` (lines 101‑142).  Loading the sentence-transformer
happens *before* the `try` and so propagates as an exception; everything
from `psycopg2.connect` onwards is inside the `try`, whose handler prints
`"Database operation failed: <e>"` and rolls back, never re-raising.
Returns the new visible table plus the logged error message, if any. -/
def embed_chunks (env : Env) (db : List Row) (chunks : List Chunk) :
    Except String (List Row × Option String) :=
  match env.modelLoad with
  | .error e => .error e
  | .ok _ =>
      match env.store.connect with
      | .error e => .ok (db, some ("Database operation failed: " ++ e))
      | .ok _ =>
          match buildRows env chunks batch_size with
          | .error e => .ok (db, some ("Database operation failed: " ++ e))
          | .ok data =>
              match persistTransaction env.store db data with
              | (db', _, none) => .ok (db', none)
              | (db', _, some e) =>
                  .ok (db', some ("Database operation failed: " ++ e))

/-! ### RPC gateway (`pdf-grpc-server.py` lines 73‑145) -/

/-- The wire request (`PdfRequest`). -/
structure PdfRequest : Type where
  pdf_data : List Nat
  filename : String
  deriving DecidableEq

/-- The wire response (`PdfResponse`). -/
structure PdfResponse : Type where
  chunks_processed : Nat
  message : String
  success : Bool
  deriving DecidableEq

/-- Observable outcome of one `ProcessPdf` call: the response, whether
the request's temporary `.pdf` file still exists on disk afterwards,
files written into the process's working area besides that temporary
file, the visible store table, and what `embed_chunks` logged. -/
structure ProcOutcome : Type where
  response : PdfResponse
  tempFileExists : Bool
  artifactFiles : List String
  db : List Row
  embedLog : Option String
  deriving DecidableEq

/-- `PdfProcessorServicer.ProcessPdf` (`pdf-grpc-server.py` lines
73‑118).  The temporary file is created (`delete=False`) and written;
the pipeline runs; `os.unlink` removes the file *only on the success
path* (line 102) — the `except` handler (lines 111‑118) builds the
failure response without any cleanup, so the temporary file survives
every failure exit. -/
def ProcessPdf (env : Env) (db : List Row) (request : PdfRequest) : ProcOutcome :=
  match extract_pdf env with
  | .error e =>
      { response := { chunks_processed := 0
                      message := "Failed to process PDF: " ++ e
                      success := false }
        tempFileExists := true
        artifactFiles := extract_pdf_files_written env
        db := db
        embedLog := none }
  | .ok chunks =>
      match embed_chunks env db chunks with
      | .error e =>
          { response := { chunks_processed := 0
                          message := "Failed to process PDF: " ++ e
                          success := false }
            tempFileExists := true
            artifactFiles := extract_pdf_files_written env
            db := db
            embedLog := none }
      | .ok (db', log) =>
          { response := { chunks_processed := chunks.length
                          message := "Successfully processed " ++ request.filename
                            ++ " and extracted " ++ toString chunks.length ++ " chunks"
                          success := true }
            tempFileExists := false
            artifactFiles := extract_pdf_files_written env
            db := db'
            embedLog := log }

/-- The wire health response (`HealthCheckResponse`). -/
structure HealthCheckResponse : Type where
  status : String
  deriving DecidableEq

/-- `PdfProcessorServicer.HealthCheck` (`pdf-grpc-server.py` lines
120‑145): open a fresh store connection and run `SELECT 1`; answer
`"healthy"` on success and `"unhealthy: <e>"` on any fault.  The probe
consults only the store's behaviour at this call, never a cached
value — the function has no other state. -/
def HealthCheck (store : StoreBehavior) : HealthCheckResponse :=
  match store.connect with
  | .ok _ => { status := "healthy" }
  | .error e => { status := "unhealthy: " ++ e }

/-! ### Reference (spec-side) definitions used for refinement claims -/

/-- The unbatched per-chunk mapping of spec §4.4: one `(text, vector)`
pair per chunk, in input order, with no batching involved.  Stated from
the spec's words, to be compared with the batched `buildRows`. -/
def unbatchedMapping (env : Env) (chunks : List Chunk) : List (String × List Int) :=
  chunks.map (fun c => (c.text, env.encodeText c.text))

/-! ### Concrete scenario fixtures -/

/-- A store that accepts connections and never faults on insert. -/
def storeUp : StoreBehavior :=
  { connect := .ok (), insertFault := none }

/-- A store whose connection attempt fails. -/
def storeDown : StoreBehavior :=
  { connect := .error "connection refused", insertFault := none }

/-- A reachable store whose batched insert raises `disk full` after
executing 1 row of the transaction. -/
def storeInsertFault : StoreBehavior :=
  { connect := .ok (), insertFault := some (1, "disk full") }

/-- A two-chunk document whose chunks carry distinct metadata. -/
def twoChunks : List Chunk :=
  [ { text := "alpha", meta := .str "m0" },
    { text := "beta", meta := .str "m1" } ]

/-- A structured document holding exactly one table and one picture. -/
def docTablePicture : StructuredDoc :=
  { elements := [.table, .text, .picture] }

/-- Environment for a well-formed request processed against `storeUp`. -/
def envOk : Env :=
  { convert := .ok docTablePicture
    chunk := fun _ => .ok twoChunks
    modelLoad := .ok ()
    encodeText := fun _ => [7]
    strF := fun _ => ""
    store := storeUp }

/-- Same request worlds with only the store varied. -/
def envStoreDown : Env :=
  { envOk with store := storeDown }

/-- A world where the batched insert faults mid-transaction. -/
def envInsertFault : Env :=
  { envOk with store := storeInsertFault }

/-- A world whose payload the document converter rejects. -/
def envBadPdf : Env :=
  { envOk with convert := .error "Invalid PDF structure" }

/-- A concrete request body. -/
def sampleRequest : PdfRequest :=
  { pdf_data := [37, 80, 68, 70], filename := "manual.pdf" }

end PdfPipeline

namespace PdfPipeline

/-! ## Theorems -/

/-! ### Serializability of converted metadata (claim C10) -/

mutual

theorem convert_good (strF : PyVal → String) : (v : PyVal) → goodInput v = true →
    isJsonTree (convert_to_dict strF v) = true
  | .pynone, _ => rfl
  | .bool _, _ => rfl
  | .int _, _ => rfl
  | .float _, _ => rfl
  | .str _, _ => rfl
  | .enum _, h => h
  | .list items, h => convertList_good strF items h
  | .obj attrs, h => convertFields_good strF attrs h
  | .pydict _, _ => rfl
  | .other _, _ => rfl

theorem convertList_good (strF : PyVal → String) : (l : PyList) → goodInputList l = true →
    isJsonTreeList (convertList strF l) = true
  | .nil, _ => rfl
  | .cons head tail, h => by
      simp only [goodInputList, Bool.and_eq_true] at h
      simp only [convertList, isJsonTreeList, Bool.and_eq_true]
      exact ⟨convert_good strF head h.1, convertList_good strF tail h.2⟩

theorem convertFields_good (strF : PyVal → String) : (l : PyFields) → goodInputFields l = true →
    isJsonTreeFields (convertFields strF l) = true
  | .nil, _ => rfl
  | .cons key val tail, h => by
      simp only [goodInputFields, Bool.and_eq_true] at h
      by_cases hk : key.startsWith ("_")
      · simpa only [convertFields, hk, if_true] using convertFields_good strF tail h.2
      · simp only [convertFields, hk, if_false, isJsonTreeFields, Bool.and_eq_true]
        exact ⟨convert_good strF val h.1, convertFields_good strF tail h.2⟩

end

mutual

theorem dumps_ok : (v : PyVal) → isJsonTree v = true → ∃ s, json_dumps v = .ok s
  | .pynone, _ => ⟨_, rfl⟩
  | .bool b, _ => ⟨_, rfl⟩
  | .int _, _ => ⟨_, rfl⟩
  | .float _, _ => ⟨_, rfl⟩
  | .str _, _ => ⟨_, rfl⟩
  | .list items, h => by
      obtain ⟨s, hs⟩ := dumpsList_ok items h
      exact ⟨"[" ++ s ++ "]", by simp [json_dumps, hs, Except.map]⟩
  | .pydict entries, h => by
      obtain ⟨s, hs⟩ := dumpsFields_ok entries h
      exact ⟨"\x7b" ++ s ++ "\x7d", by simp [json_dumps, hs, Except.map]⟩

theorem dumpsList_ok : (l : PyList) → isJsonTreeList l = true → ∃ s, jsonDumpsList l = .ok s
  | .nil, _ => ⟨_, rfl⟩
  | .cons head .nil, h => by
      simp only [isJsonTreeList, Bool.and_eq_true] at h
      exact dumps_ok head h.1
  | .cons head (.cons v2 t2), h => by
      simp only [isJsonTreeList, Bool.and_eq_true] at h
      obtain ⟨s1, hs1⟩ := dumps_ok head h.1
      obtain ⟨s2, hs2⟩ := dumpsList_ok (.cons v2 t2) (by
        simp only [isJsonTreeList, Bool.and_eq_true]; exact h.2)
      exact ⟨s1 ++ ", " ++ s2, by simp [jsonDumpsList, hs1, hs2, bind, Except.bind, pure, Except.pure]⟩

theorem dumpsFields_ok : (l : PyFields) → isJsonTreeFields l = true → ∃ s, jsonDumpsFields l = .ok s
  | .nil, _ => ⟨_, rfl⟩
  | .cons key val .nil, h => by
      simp only [isJsonTreeFields, Bool.and_eq_true] at h
      obtain ⟨s, hs⟩ := dumps_ok val h.1
      exact ⟨"\"" ++ key ++ "\": " ++ s, by simp [jsonDumpsFields, hs, Except.map]⟩
  | .cons key val (.cons k2 v2 t2), h => by
      simp only [isJsonTreeFields, Bool.and_eq_true] at h
      obtain ⟨s1, hs1⟩ := dumps_ok val h.1
      obtain ⟨s2, hs2⟩ := dumpsFields_ok (.cons k2 v2 t2) (by
        simp only [isJsonTreeFields, Bool.and_eq_true]; exact h.2)
      exact ⟨"\"" ++ key ++ "\": " ++ s1 ++ ", " ++ s2,
        by simp [jsonDumpsFields, hs1, hs2, bind, Except.bind, pure, Except.pure]⟩

end

/-- C10 (amended): for every acyclic input value in which each `Enum`
instance carries a value that is already a structured-value-tree,
`convert_to_dict` returns a structured-value-tree, and `json.dumps`
succeeds on it.  (The un-amended universal claim fails because the
source returns an `Enum`'s `.value` without converting it; see the
counterexample.) -/
theorem claimC10_amended (strF : PyVal → String) (v : PyVal)
    (h : goodInput v = true) :
    isJsonTree (convert_to_dict strF v) = true
      ∧ ∃ s, json_dumps (convert_to_dict strF v) = .ok s := by
  have ht := convert_good strF v h
  exact ⟨ht, dumps_ok _ ht⟩

/-- C10 witness: a concrete object whose attributes mix primitives,
lists and an underscore-prefixed key satisfies the amended claim. -/
theorem claimC10_witness :
    goodInput (.obj (.cons "pages" (.int 3)
      (.cons "_private" (.other "h") (.cons "tags"
        (.list (.cons (.str "a") .nil)) .nil)))) = true
      ∧ (isJsonTree (convert_to_dict (fun _ => "") (.obj (.cons "pages" (.int 3)
          (.cons "_private" (.other "h") (.cons "tags"
            (.list (.cons (.str "a") .nil)) .nil))))) = true
        ∧ ∃ s, json_dumps (convert_to_dict (fun _ => "") (.obj (.cons "pages" (.int 3)
            (.cons "_private" (.other "h") (.cons "tags"
              (.list (.cons (.str "a") .nil)) .nil))))) = .ok s) :=
  ⟨by decide, claimC10_amended (fun _ => "") _ (by decide)⟩

/-- C10 counterexample: the claim as stated is false — an `Enum` whose
value is a plain object (legal in Python) is returned unconverted, so
the result is not a structured-value-tree and `json.dumps` raises. -/
theorem claimC10_counterexample :
    isJsonTree (convert_to_dict (fun _ => "")
        (.enum (.other "<object object at 0x0>"))) = false
      ∧ (json_dumps (convert_to_dict (fun _ => "")
          (.enum (.other "<object object at 0x0>")))).isOk = false := by
  decide

/-! ### Health probe (claim C7) -/

theorem healthy_ne_unhealthy (e : String) : ("healthy" : String) ≠ "unhealthy: " ++ e := by
  intro h
  have hlen := congrArg String.length h
  rw [String.length_append] at hlen
  have h1 : ("healthy" : String).length = 7 := rfl
  have h2 : ("unhealthy: " : String).length = 11 := rfl
  omega

/-- C7: `HealthCheck` is a function of the store's behaviour at the
moment of the call alone (it re-probes, holding no cache): it answers
exactly `"healthy"` when the connection probe succeeds, a string
beginning `"unhealthy:"` carrying the store's error when it fails, and
two calls made while the store's availability differs answer
differently. -/
theorem claimC7_healthcheck (store store' : StoreBehavior) (e : String) :
    (store.connect = .ok () → (HealthCheck store).status = "healthy")
      ∧ (store.connect = .error e →
          (HealthCheck store).status = "unhealthy: " ++ e
            ∧ ∃ rest, (HealthCheck store).status = "unhealthy: " ++ rest)
      ∧ (store.connect = .ok () → store'.connect = .error e →
          HealthCheck store ≠ HealthCheck store') := by
  refine ⟨fun h => ?_, fun h => ?_, fun h h' => ?_⟩
  · simp [HealthCheck, h]
  · simp [HealthCheck, h]
  · simp only [HealthCheck, h, h']
    intro hcontra
    exact healthy_ne_unhealthy e (congrArg HealthCheckResponse.status hcontra)

/-- C7 witness: with the store up the probe answers `"healthy"`; with it
down the answer begins `"unhealthy:"`; the two answers differ. -/
theorem claimC7_witness :
    (HealthCheck storeUp).status = "healthy"
      ∧ (HealthCheck storeDown).status = "unhealthy: " ++ "connection refused"
      ∧ HealthCheck storeUp ≠ HealthCheck storeDown :=
  ⟨(claimC7_healthcheck storeUp storeDown "connection refused").1 rfl,
   ((claimC7_healthcheck storeDown storeUp "connection refused").2.1 rfl).1,
   (claimC7_healthcheck storeUp storeDown "connection refused").2.2 rfl rfl⟩

/-! ### Response shape (claim C9) -/

/-- C9: a failure response always reports `chunks_processed = 0`
(the `except` handler of `ProcessPdf` hard-codes it), and a success
response reports exactly the number of chunks the extraction stage
yielded for this document. -/
theorem claimC9_chunks_processed (env : Env) (db : List Row) (req : PdfRequest) :
    ((ProcessPdf env db req).response.success = false →
        (ProcessPdf env db req).response.chunks_processed = 0)
      ∧ (∀ chunks, extract_pdf env = .ok chunks →
          (ProcessPdf env db req).response.success = true →
          (ProcessPdf env db req).response.chunks_processed = chunks.length) := by
  constructor
  · intro hfail
    unfold ProcessPdf at hfail ⊢
    cases hex : extract_pdf env with
    | error e => simp [hex]
    | ok chunks =>
        cases hem : embed_chunks env db chunks with
        | error e => simp [hex, hem]
        | ok pair => simp [hex, hem] at hfail
  · intro chunks hex hsucc
    unfold ProcessPdf
    cases hem : embed_chunks env db chunks with
    | error e =>
        unfold ProcessPdf at hsucc
        simp [hex, hem] at hsucc
    | ok pair => simp [hex, hem]

/-- C9 witness: concrete success and failure calls show count `2`
(the two extracted chunks) and count `0` respectively. -/
theorem claimC9_witness :
    (ProcessPdf envOk [] sampleRequest).response.chunks_processed = 2
      ∧ (ProcessPdf envBadPdf [] sampleRequest).response.chunks_processed = 0 :=
  ⟨(claimC9_chunks_processed envOk [] sampleRequest).2 twoChunks rfl rfl,
   (claimC9_chunks_processed envBadPdf [] sampleRequest).1 rfl⟩

/-! ### Temporary-file lifecycle (claim C2) -/

/-- C2 evidence: the claim that the temporary file is released on every
exit path fails on the code.  On a request whose payload the converter
rejects, the `except` handler of `ProcessPdf` builds the failure
response without ever calling `os.unlink`, so after the call returns the
response reports failure while the temporary `.pdf` file is still on
disk.  (Only the success path, line 102, removes it.) -/
theorem claimC2_evidence :
    (ProcessPdf envBadPdf [] sampleRequest).response.success = false
      ∧ (ProcessPdf envBadPdf [] sampleRequest).tempFileExists = true
      ∧ (ProcessPdf envOk [] sampleRequest).tempFileExists = false := by
  decide

/-! ### Persistence-failure reporting (claims C1 and C5) -/

theorem failMsg_ne_empty (e : String) : ("Failed to process PDF: " ++ e) ≠ "" := by
  intro h
  have hlen := congrArg String.length h
  rw [String.length_append] at hlen
  have h1 : ("Failed to process PDF: " : String).length = 23 := rfl
  have h2 : ("" : String).length = 0 := rfl
  omega

/-- C1 counterexample: with the store unreachable at persistence time,
the call nevertheless returns `success = true` with the standard success
message — the claim's `success = false` is false on the code, because
`embed_chunks` catches every store error itself (lines 139‑142) and only
prints it. -/
theorem claimC1_counterexample :
    (ProcessPdf envStoreDown [] sampleRequest).response.success = true
      ∧ (ProcessPdf envStoreDown [] sampleRequest).response.message
          = "Successfully processed manual.pdf and extracted 2 chunks"
      ∧ (ProcessPdf envStoreDown [] sampleRequest).embedLog
          = some "Database operation failed: connection refused" := by
  decide

/-- C1 (amended): when the persistence step fails (store unreachable or
the batched insert errors mid-transaction), the store error is caught
*inside* the embedding stage and only logged; the `ProcessPdf` response
still has `success = true` with the standard success message (which does
not carry the store's error description), no rows become visible, and
the temporary file is removed as on any success path. -/
theorem claimC1_amended (env : Env) (db : List Row) (req : PdfRequest)
    (chunks : List Chunk) (e : String)
    (hex : extract_pdf env = .ok chunks)
    (hml : env.modelLoad = .ok ())
    (hstore : env.store.connect = .error e
      ∨ (env.store.connect = .ok ()
          ∧ ∃ n data, buildRows env chunks batch_size = .ok data
              ∧ env.store.insertFault = some (n, e) ∧ n < data.length)) :
    (ProcessPdf env db req).response.success = true
      ∧ (ProcessPdf env db req).response.message
          = "Successfully processed " ++ req.filename
              ++ " and extracted " ++ toString chunks.length ++ " chunks"
      ∧ (ProcessPdf env db req).db = db
      ∧ (ProcessPdf env db req).tempFileExists = false
      ∧ (ProcessPdf env db req).embedLog
          = some ("Database operation failed: " ++ e) := by
  rcases hstore with hconn | ⟨hconn, n, data, hrows, hfault, hlt⟩
  · have hem : embed_chunks env db chunks
        = .ok (db, some ("Database operation failed: " ++ e)) := by
      unfold embed_chunks
      rw [hml, hconn]
    simp [ProcessPdf, hex, hem]
  · have hem : embed_chunks env db chunks
        = .ok (db, some ("Database operation failed: " ++ e)) := by
      unfold embed_chunks persistTransaction
      rw [hml, hconn, hrows, hfault]
      simp [hlt]
    simp [ProcessPdf, hex, hem]

/-- C1 witness: the amended claim at the concrete store-down scenario. -/
theorem claimC1_witness :
    (ProcessPdf envStoreDown [] sampleRequest).response.success = true
      ∧ (ProcessPdf envStoreDown [] sampleRequest).response.message
          = "Successfully processed " ++ "manual.pdf"
              ++ " and extracted " ++ toString (2:Nat) ++ " chunks"
      ∧ (ProcessPdf envStoreDown [] sampleRequest).db = []
      ∧ (ProcessPdf envStoreDown [] sampleRequest).tempFileExists = false
      ∧ (ProcessPdf envStoreDown [] sampleRequest).embedLog
          = some ("Database operation failed: " ++ "connection refused") :=
  claimC1_amended envStoreDown [] sampleRequest twoChunks "connection refused"
    rfl rfl (Or.inl rfl)

/-- C5 counterexample: an error genuinely raised during processing — the
batched insert faulting mid-transaction — is *not* converted into a
`success = false` response: the call answers `success = true` while the
error only reaches the server log.  The claim's universal conversion
policy fails for the persistence (and in-`try` embedding) stage. -/
theorem claimC5_counterexample :
    (ProcessPdf envInsertFault [] sampleRequest).embedLog
        = some "Database operation failed: disk full"
      ∧ (ProcessPdf envInsertFault [] sampleRequest).response.success = true := by
  decide

/-- C5 (amended): every per-request error that reaches the service
boundary — an extraction/chunking fault or the embedding-model load
failing — is caught by the handler of `ProcessPdf` and converted into a
well-formed `success = false` response whose message is non-empty; the
call always returns a response rather than terminating the process.
Errors raised inside the stage's own `try` (store connect/insert faults,
metadata-serialization faults) are caught there and logged, and the
response reports success instead. -/
theorem claimC5_amended (env : Env) (db : List Row) (req : PdfRequest)
    (e : String)
    (h : extract_pdf env = .error e
      ∨ (∃ chunks, extract_pdf env = .ok chunks ∧ env.modelLoad = .error e)) :
    (ProcessPdf env db req).response.success = false
      ∧ (ProcessPdf env db req).response.message = "Failed to process PDF: " ++ e
      ∧ (ProcessPdf env db req).response.message ≠ ""
      ∧ (ProcessPdf env db req).response.chunks_processed = 0 := by
  rcases h with hex | ⟨chunks, hex, hml⟩
  · simp [ProcessPdf, hex, failMsg_ne_empty e]
  · have hem : embed_chunks env db chunks = .error e := by
      unfold embed_chunks
      rw [hml]
    simp [ProcessPdf, hex, hem, failMsg_ne_empty e]

/-- C5 witness: the amended claim at the concrete invalid-payload
scenario. -/
theorem claimC5_witness :
    (ProcessPdf envBadPdf [] sampleRequest).response.success = false
      ∧ (ProcessPdf envBadPdf [] sampleRequest).response.message
          = "Failed to process PDF: " ++ "Invalid PDF structure"
      ∧ (ProcessPdf envBadPdf [] sampleRequest).response.message ≠ ""
      ∧ (ProcessPdf envBadPdf [] sampleRequest).response.chunks_processed = 0 :=
  claimC5_amended envBadPdf [] sampleRequest "Invalid PDF structure" (Or.inl rfl)

/-! ### Image artifacts (claim C4) -/

/-- C4 counterexample: processing a well-formed document holding exactly
one table and one picture succeeds, yet no `table-1.png` (nor any other
artifact file) is produced at any point: `extract_pdf` takes only the
input path, has no output directory, and renders nothing to disk. -/
theorem claimC4_counterexample :
    envOk.convert = .ok docTablePicture
      ∧ docTablePicture.elements.count ElementKind.table = 1
      ∧ docTablePicture.elements.count ElementKind.picture = 1
      ∧ (ProcessPdf envOk [] sampleRequest).response.success = true
      ∧ (ProcessPdf envOk [] sampleRequest).artifactFiles = []
      ∧ ¬ "table-1.png" ∈ (ProcessPdf envOk [] sampleRequest).artifactFiles :=
  ⟨rfl, by decide, by decide, rfl, rfl, by decide⟩

/-- C4 (amended): the extraction stage writes no image files at all.  It
configures the converter with in-memory picture-image generation
(`generate_picture_images = true`, `images_scale = 2.0`) and returns the
chunker's output on the converted document; tables and pictures stay
inside the in-memory document object, and no per-job output directory
exists anywhere in the service. -/
theorem claimC4_amended (env : Env) :
    extract_pdf_files_written env = []
      ∧ (ProcessPdf env [] sampleRequest).artifactFiles = []
      ∧ pipeline_options.generate_picture_images = true
      ∧ pipeline_options.images_scale = 2
      ∧ (∀ doc, env.convert = .ok doc → extract_pdf env = env.chunk doc)
      ∧ (∀ e, env.convert = .error e → extract_pdf env = .error e) := by
  refine ⟨rfl, ?_, rfl, rfl, ?_, ?_⟩
  · unfold ProcessPdf
    split
    · rfl
    · split
      · rfl
      · rfl
  · intro doc hdoc
    unfold extract_pdf
    rw [hdoc]
  · intro e he
    unfold extract_pdf
    rw [he]

/-- C4 witness: the amended claim at the concrete one-table-one-picture
world. -/
theorem claimC4_witness :
    extract_pdf_files_written envOk = []
      ∧ (ProcessPdf envOk [] sampleRequest).artifactFiles = []
      ∧ pipeline_options.generate_picture_images = true
      ∧ pipeline_options.images_scale = 2
      ∧ extract_pdf envOk = envOk.chunk docTablePicture :=
  ⟨(claimC4_amended envOk).1, (claimC4_amended envOk).2.1,
   (claimC4_amended envOk).2.2.1, (claimC4_amended envOk).2.2.2.1,
   (claimC4_amended envOk).2.2.2.2.1 docTablePicture rfl⟩

/-! ### All-or-nothing persistence (claim C6) -/

/-- Case analysis of one persistence transaction: all-or-nothing
visibility, at most one commit, commit iff no error, and rollback after
a mid-batch fault. -/
theorem persistTransaction_cases (store : StoreBehavior) (db data : List Row) :
    ((persistTransaction store db data).1 = db
      ∨ (persistTransaction store db data).1 = db ++ data)
    ∧ (persistTransaction store db data).2.1 ≤ 1
    ∧ ((persistTransaction store db data).2.2 = none ↔
        ((persistTransaction store db data).1 = db ++ data
          ∧ (persistTransaction store db data).2.1 = 1))
    ∧ (∀ n e, store.insertFault = some (n, e) → n < data.length →
        executedBeforeFault store data = data.take n
          ∧ (persistTransaction store db data).1 = db
          ∧ (persistTransaction store db data).2.1 = 0) := by
  cases hf : store.insertFault with
  | none =>
      simp [persistTransaction, executedBeforeFault, hf]
  | some p =>
      obtain ⟨n, e⟩ := p
      by_cases hlt : n < data.length
      · simp [persistTransaction, executedBeforeFault, hf, hlt]
      · simp [persistTransaction, executedBeforeFault, hf, hlt]
        omega

/-- `embed_chunks` never leaves a partial batch visible: the table is
either unchanged or extended by the entire record batch. -/
theorem embed_chunks_all_or_nothing (env : Env) (db : List Row) (chunks : List Chunk)
    (db' : List Row) (log : Option String)
    (hem : embed_chunks env db chunks = .ok (db', log)) :
    db' = db ∨ ∃ data, buildRows env chunks batch_size = .ok data
      ∧ db' = db ++ data ∧ log = none := by
  unfold embed_chunks at hem
  cases hml : env.modelLoad with
  | error e => rw [hml] at hem; cases hem
  | ok u =>
      rw [hml] at hem
      cases hconn : env.store.connect with
      | error e =>
          rw [hconn] at hem
          cases hem
          exact Or.inl rfl
      | ok u' =>
          rw [hconn] at hem
          cases hrows : buildRows env chunks batch_size with
          | error e =>
              rw [hrows] at hem
              cases hem
              exact Or.inl rfl
          | ok data =>
              rw [hrows] at hem
              unfold persistTransaction at hem
              cases hf : env.store.insertFault with
              | none =>
                  rw [hf] at hem
                  cases hem
                  exact Or.inr ⟨data, rfl, rfl, rfl⟩
              | some p =>
                  obtain ⟨n, e⟩ := p
                  rw [hf] at hem
                  by_cases hlt : n < data.length
                  · simp only [hlt, if_true] at hem
                    cases hem
                    exact Or.inl rfl
                  · simp only [hlt, if_false] at hem
                    cases hem
                    exact Or.inr ⟨data, rfl, rfl, rfl⟩

/-- C6: the persistence transaction is all-or-nothing and commits at
most once — exactly once when no error interrupts it.  If the insert
faults after executing some rows (`executedBeforeFault` may be a proper
non-empty prefix of the batch), the rollback leaves the visible table
exactly as it was: no partial batch is ever visible.  Consequently
`embed_chunks` leaves the table either unchanged or extended by the
whole record batch. -/
theorem claimC6_atomic_persistence :
    (∀ (store : StoreBehavior) (db data : List Row),
        ((persistTransaction store db data).1 = db
          ∨ (persistTransaction store db data).1 = db ++ data)
      ∧ (persistTransaction store db data).2.1 ≤ 1
      ∧ ((persistTransaction store db data).2.2 = none ↔
          ((persistTransaction store db data).1 = db ++ data
            ∧ (persistTransaction store db data).2.1 = 1))
      ∧ (∀ n e, store.insertFault = some (n, e) → n < data.length →
          executedBeforeFault store data = data.take n
            ∧ (persistTransaction store db data).1 = db
            ∧ (persistTransaction store db data).2.1 = 0))
    ∧ (∀ (env : Env) (db : List Row) (chunks : List Chunk)
          (db' : List Row) (log : Option String),
        embed_chunks env db chunks = .ok (db', log) →
          db' = db ∨ ∃ data, buildRows env chunks batch_size = .ok data
            ∧ db' = db ++ data ∧ log = none) :=
  ⟨fun store db data => persistTransaction_cases store db data,
   fun env db chunks db' log hem =>
     embed_chunks_all_or_nothing env db chunks db' log hem⟩

/-- C6 witness: a fault after one executed row rolls the table back to
empty with zero commits, while the untouched store commits the whole
two-row batch once. -/
theorem claimC6_witness :
    executedBeforeFault storeInsertFault
        [ { id := 0, doc_fragment := "alpha", metadata := "m", embedding := [] },
          { id := 1, doc_fragment := "beta", metadata := "m", embedding := [] } ]
        = [ { id := 0, doc_fragment := "alpha", metadata := "m", embedding := [] } ]
      ∧ (persistTransaction storeInsertFault []
          [ { id := 0, doc_fragment := "alpha", metadata := "m", embedding := [] },
            { id := 1, doc_fragment := "beta", metadata := "m", embedding := [] } ]).1 = []
      ∧ (persistTransaction storeInsertFault []
          [ { id := 0, doc_fragment := "alpha", metadata := "m", embedding := [] },
            { id := 1, doc_fragment := "beta", metadata := "m", embedding := [] } ]).2.1 = 0 := by
  have h := (claimC6_atomic_persistence.1 storeInsertFault []
    [ { id := 0, doc_fragment := "alpha", metadata := "m", embedding := [] },
      { id := 1, doc_fragment := "beta", metadata := "m", embedding := [] } ]).2.2.2
    1 "disk full" rfl (by decide)
  exact ⟨by rw [h.1]; decide, h.2.1, h.2.2⟩

end PdfPipeline
namespace PdfPipeline

theorem zip_self_map {α β : Type} (f : α → β) :
    ∀ (l : List α), l.zip (l.map f) = l.map (fun x => (x, f x))
  | [] => rfl
  | x :: rest => by
      simp only [List.map_cons, List.zip_cons_cons, zip_self_map f rest]

theorem rowsFromBatch_map_pair (m : String) :
    ∀ (idx : Nat) (l : List (String × List Int)),
      (rowsFromBatch m idx l).map (fun r => (r.doc_fragment, r.embedding)) = l
  | _, [] => rfl
  | idx, (t, emb) :: rest => by
      simp only [rowsFromBatch, List.map_cons, rowsFromBatch_map_pair m (idx + 1) rest]

theorem slice_map {α β : Type} (f : α → β) (l : List α) (i bs : Nat) :
    slice (l.map f) i bs = (slice l i bs).map f := by
  unfold slice
  rw [List.map_take, List.map_drop]

theorem batchRows_ok_pairs (env : Env) (chunks : List Chunk) (bs i : Nat)
    (rows : List Row) (h : batchRows env chunks bs i = .ok rows) :
    rows.map (fun r => (r.doc_fragment, r.embedding))
      = (slice (chunks.map Chunk.text) i bs).map (fun t => (t, env.encodeText t)) := by
  unfold batchRows at h
  cases hd : json_dumps (convert_to_dict env.strF (chunks.getD i default).meta) with
  | error e => rw [hd] at h; cases h
  | ok m =>
      rw [hd] at h
      cases h
      rw [rowsFromBatch_map_pair]
      unfold encode
      exact zip_self_map env.encodeText _

theorem collectBatches_ok_pairs (env : Env) (chunks : List Chunk) (bs : Nat) :
    ∀ (starts : List Nat) (batches : List (List Row)),
      collectBatches env chunks bs starts = .ok batches →
      batches.map (List.map (fun r => (r.doc_fragment, r.embedding)))
        = starts.map (fun i =>
            (slice (chunks.map Chunk.text) i bs).map (fun t => (t, env.encodeText t)))
  | [], batches, h => by cases h; rfl
  | i :: rest, batches, h => by
      unfold collectBatches at h
      cases hb : batchRows env chunks bs i with
      | error e => rw [hb] at h; cases h
      | ok rows =>
          rw [hb] at h
          cases hc : collectBatches env chunks bs rest with
          | error e => rw [hc] at h; cases h
          | ok later =>
              rw [hc] at h
              cases h
              simp only [List.map_cons]
              rw [batchRows_ok_pairs env chunks bs i rows hb,
                  collectBatches_ok_pairs env chunks bs rest later hc]

theorem numBatches_drop (bs n k : Nat) (hbs : 0 < bs)
    (h : numBatches n bs = k + 1) : numBatches (n - bs) bs = k := by
  unfold numBatches at h ⊢
  by_cases hn : n ≤ bs
  · have h2 : (n + bs - 1) / bs < 2 := (Nat.div_lt_iff_lt_mul hbs).mpr (by omega)
    rw [h] at h2
    have h0 : (bs - 1) / bs = 0 := Nat.div_eq_of_lt (by omega)
    have hz : n - bs = 0 := by omega
    rw [hz, Nat.zero_add, h0]
    omega
  · have heq : n + bs - 1 = (n - bs + bs - 1) + bs := by omega
    rw [heq, Nat.add_div_right _ hbs] at h
    exact Nat.add_right_cancel h

theorem flatten_slices {α : Type} (bs : Nat) (hbs : 0 < bs) :
    ∀ (k : Nat) (l : List α), numBatches l.length bs = k →
      ((List.range k).map (fun b => slice l (b * bs) bs)).flatten = l := by
  intro k
  induction k with
  | zero =>
      intro l h
      have hlen : l.length = 0 := by
        unfold numBatches at h
        have hlt : l.length + bs - 1 < bs := (Nat.div_eq_zero_iff hbs).mp h
        omega
      rw [List.length_eq_zero.mp hlen]
      rfl
  | succ k ih =>
      intro l h
      rw [List.range_succ_eq_map]
      simp only [List.map_cons, List.map_map, List.flatten_cons]
      have hhead : slice l (0 * bs) bs = l.take bs := by
        unfold slice
        rw [Nat.zero_mul, List.drop_zero]
      have htail : (List.range k).map ((fun b => slice l (b * bs) bs) ∘ (fun b => b + 1))
          = (List.range k).map (fun b => slice (l.drop bs) (b * bs) bs) := by
        apply List.map_congr_left
        intro b _
        show slice l ((b + 1) * bs) bs = slice (l.drop bs) (b * bs) bs
        unfold slice
        rw [List.drop_drop, Nat.add_mul, Nat.one_mul, Nat.add_comm (b * bs) bs]
      rw [hhead, htail, ih (l.drop bs) (by
        rw [List.length_drop]
        exact numBatches_drop bs l.length k hbs h)]
      exact List.take_append_drop bs l

end PdfPipeline
namespace PdfPipeline

/-- C8: batching is unobservable in the embedding stage's output.  For
every chunk list on which row construction succeeds, the rows — built in
fixed batches of `batch_size = 100` — are one-to-one and order-preserving
with the input: their `(fragment, vector)` sequence equals the unbatched
per-chunk mapping, their count equals the chunk count, and their fragment
order equals the chunk text order. -/
theorem claimC8_batching (env : Env) (chunks : List Chunk) (rows : List Row)
    (h : buildRows env chunks batch_size = .ok rows) :
    rows.map (fun r => (r.doc_fragment, r.embedding)) = unbatchedMapping env chunks
      ∧ rows.length = chunks.length
      ∧ rows.map Row.doc_fragment = chunks.map Chunk.text := by
  unfold buildRows at h
  cases hc : collectBatches env chunks batch_size
      (batchStarts chunks.length batch_size) with
  | error e => rw [hc] at h; cases h
  | ok batches =>
      rw [hc] at h
      simp only [Except.map] at h
      cases h
      have hpair : (List.flatten batches).map (fun r => (r.doc_fragment, r.embedding))
          = unbatchedMapping env chunks := by
        rw [List.map_flatten]
        rw [collectBatches_ok_pairs env chunks batch_size _ batches hc]
        unfold batchStarts
        rw [List.map_map]
        have hcong : (List.range (numBatches chunks.length batch_size)).map
            ((fun i => (slice (chunks.map Chunk.text) i batch_size).map
                (fun t => (t, env.encodeText t))) ∘ (fun b => b * batch_size))
            = (List.range (numBatches chunks.length batch_size)).map
              (fun b => slice ((chunks.map Chunk.text).map (fun t => (t, env.encodeText t)))
                (b * batch_size) batch_size) := by
          apply List.map_congr_left
          intro b _
          show (slice (chunks.map Chunk.text) (b * batch_size) batch_size).map _ = _
          rw [← slice_map]
        rw [hcong]
        rw [flatten_slices batch_size (by decide) (numBatches chunks.length batch_size)
          ((chunks.map Chunk.text).map (fun t => (t, env.encodeText t)))
          (by simp only [List.length_map])]
        rw [List.map_map]
        rfl
      refine ⟨hpair, ?_, ?_⟩
      · have hlen := congrArg List.length hpair
        rw [List.length_map] at hlen
        rw [hlen]
        unfold unbatchedMapping
        rw [List.length_map]
      · have hfst := congrArg (List.map Prod.fst) hpair
        unfold unbatchedMapping at hfst
        rw [List.map_map, List.map_map] at hfst
        exact hfst

/-- C8 witness: the two-chunk fixture maps to exactly two rows whose
fragments and vectors equal the unbatched mapping. -/
theorem claimC8_witness :
    ([ { id := 0, doc_fragment := "alpha", metadata := "\"m0\"", embedding := [7] },
       { id := 1, doc_fragment := "beta", metadata := "\"m0\"", embedding := [7] } ]
        : List Row).map (fun r => (r.doc_fragment, r.embedding))
        = unbatchedMapping envOk twoChunks
      ∧ ([ { id := 0, doc_fragment := "alpha", metadata := "\"m0\"", embedding := [7] },
           { id := 1, doc_fragment := "beta", metadata := "\"m0\"", embedding := [7] } ]
          : List Row).length = twoChunks.length
      ∧ ([ { id := 0, doc_fragment := "alpha", metadata := "\"m0\"", embedding := [7] },
           { id := 1, doc_fragment := "beta", metadata := "\"m0\"", embedding := [7] } ]
          : List Row).map Row.doc_fragment = twoChunks.map Chunk.text :=
  claimC8_batching envOk twoChunks _ rfl

/-- C3 evidence: the per-position metadata claim fails on the code.  On
a two-chunk document (single batch), the loop body serializes
`chunks[i].meta` with the *outer* batch index `i`, so the record at
position 1 carries the metadata of chunk 0 (`"m0"`), not that of its own
chunk, whose metadata serializes to `"m1"`.  The record count still
equals the chunk count. -/
theorem claimC3_evidence :
    buildRows envOk twoChunks batch_size
        = .ok [ { id := 0, doc_fragment := "alpha", metadata := "\"m0\"", embedding := [7] },
                { id := 1, doc_fragment := "beta", metadata := "\"m0\"", embedding := [7] } ]
      ∧ twoChunks.map (fun c => json_dumps (convert_to_dict envOk.strF c.meta))
          = [ .ok "\"m0\"", .ok "\"m1\"" ]
      ∧ ("\"m0\"" : String) ≠ "\"m1\"" :=
  ⟨rfl, rfl, by decide⟩

end PdfPipeline
